import Mathlib

/-!
# COSI sample driver: provisioning engine

A shallow embedding of `pkg/provisioner.go` and `pkg/objectscale/iamService.go`.

The four RPC handlers talk to an object-storage appliance through the AWS SDK.
The appliance is external to the program, so it is a parameter of the embedding:
an `Appliance σ` gives, for every remote operation the program issues, the answer
and the next appliance state.  The handlers thread a `World σ` that holds the
appliance state, the list of remote calls issued so far, and the lines written to
standard output.
-/

namespace CosiDriver

/-! ## Values shared with the libraries -/

/-- The gRPC status codes of `google.golang.org/grpc/codes`. -/
inductive Code where
  | OK | Canceled | Unknown | InvalidArgument | DeadlineExceeded | NotFound
  | AlreadyExists | PermissionDenied | ResourceExhausted | FailedPrecondition
  | Aborted | OutOfRange | Unimplemented | Internal | Unavailable | DataLoss
  | Unauthenticated
  deriving DecidableEq, Repr

/-- The error value built by `status.Error(code, message)`. -/
structure Status where
  code : Code
  message : String
  deriving DecidableEq, Repr

/-- A Go `error` coming back from the SDK: its SDK error code (`awserr.Error.Code()`)
and the text `Error()` renders. -/
structure GoError where
  code : String
  text : String
  deriving DecidableEq, Repr

/-- The value of `credentials.NewStaticCredentials(id, secret, token)`. -/
structure StaticCredentials where
  id : String
  secret : String
  token : String
  deriving DecidableEq, Repr

/-- The fields of `aws.Config` the handlers set. -/
structure Config where
  Credentials : StaticCredentials
  Endpoint : String
  Region : String
  DisableSSL : Bool
  S3ForcePathStyle : Bool
  deriving DecidableEq, Repr

/-- An `s3.CreateBucketOutput`; the program only observes its `GoString()` rendering. -/
structure CreateBucketOutput where
  goString : String
  deriving DecidableEq, Repr

/-- An `s3.DeleteBucketOutput`; the program only observes its `GoString()` rendering. -/
structure DeleteBucketOutput where
  goString : String
  deriving DecidableEq, Repr

/-- An `iam.User` as returned in `CreateUserOutput.User`. -/
structure User where
  UserName : String
  deriving DecidableEq, Repr

/-- An `iam.AccessKey`: the two fields the grant handler dereferences.  Both are
`*string` in the SDK, so either may be nil. -/
structure AccessKey where
  AccessKeyId : Option String
  SecretAccessKey : Option String
  deriving DecidableEq, Repr

/-- How a handler call ends when it hands back no response: with the RPC status it
returned as its error, or in a run-time panic (a nil pointer dereference). -/
inductive Failure where
  | status (st : Status)
  | panic
  deriving DecidableEq, Repr

/-! ## COSI messages -/

/-- The S3 section of a COSI `Protocol`; `Region` is the only field read. -/
structure S3 where
  Region : String
  deriving DecidableEq, Repr

/-- The `type` oneof of a COSI `Protocol`.  `GetS3` answers a non-nil section only
for the `s3` alternative holding one. -/
inductive ProtocolType where
  | s3 (s3 : Option S3)
  | azureBlob
  | gcs
  deriving DecidableEq, Repr

/-- A COSI `Protocol` message. -/
structure Protocol where
  type : Option ProtocolType
  deriving DecidableEq, Repr

/-- Getter `(*Protocol).GetS3`, nil-safe as generated getters are. -/
def Protocol.GetS3 : Option Protocol → Option S3
  | some { type := some (ProtocolType.s3 sec) } => sec
  | _ => none

/-- Getter `(*S3).GetRegion`, nil-safe: a nil receiver answers the empty string. -/
def S3.GetRegion : Option S3 → String
  | some sec => sec.Region
  | none => ""

structure ProvisionerCreateBucketRequest where
  Name : String
  Protocol : Option CosiDriver.Protocol
  deriving DecidableEq, Repr

structure ProvisionerCreateBucketResponse where
  BucketId : String
  deriving DecidableEq, Repr

structure ProvisionerDeleteBucketRequest where
  BucketId : String
  deriving DecidableEq, Repr

structure ProvisionerDeleteBucketResponse where
  deriving DecidableEq, Repr

structure ProvisionerGrantBucketAccessRequest where
  BucketId : String
  deriving DecidableEq, Repr

structure ProvisionerGrantBucketAccessResponse where
  AccountId : String
  Credentials : String
  deriving DecidableEq, Repr

structure ProvisionerRevokeBucketAccessRequest where
  BucketId : String
  AccountId : String
  deriving DecidableEq, Repr

structure ProvisionerRevokeBucketAccessResponse where
  deriving DecidableEq, Repr

/-- Getter `GetName` of the create request (nil-safe). -/
def ProvisionerCreateBucketRequest.GetName : Option ProvisionerCreateBucketRequest → String
  | some r => r.Name
  | none => ""

/-- Getter `GetProtocol` of the create request (nil-safe). -/
def ProvisionerCreateBucketRequest.GetProtocol :
    Option ProvisionerCreateBucketRequest → Option CosiDriver.Protocol
  | some r => r.Protocol
  | none => none

/-- Getter `GetBucketId` of the delete request (nil-safe). -/
def ProvisionerDeleteBucketRequest.GetBucketId : Option ProvisionerDeleteBucketRequest → String
  | some r => r.BucketId
  | none => ""

/-- Getter `GetBucketId` of the grant request (nil-safe). -/
def ProvisionerGrantBucketAccessRequest.GetBucketId :
    Option ProvisionerGrantBucketAccessRequest → String
  | some r => r.BucketId
  | none => ""

/-! ## UUIDs (`github.com/gofrs/uuid`) -/

/-- A UUID value: sixteen bytes. -/
abbrev UUID := Fin 16 → Fin 256

/-- The value `uuid.Nil`, which `uuid.NewV4` hands back next to an error. -/
def UUID.Nil : UUID := fun _ => 0

/-- The table `"0123456789abcdef"` of `encoding/hex`, indexed by a nibble. -/
def hextable (n : Nat) : Char :=
  if n < 10 then Char.ofNat (48 + n) else Char.ofNat (87 + n)

/-- What `hex.Encode` writes for one byte: `hextable[v >> 4]`, `hextable[v & 0x0f]`. -/
def hexByte (v : Fin 256) : List Char :=
  [hextable (v.val / 16), hextable (v.val % 16)]

/-- The characters of `UUID.String()`: the bytes in hex, in groups of 4, 2, 2, 2 and 6
bytes separated by hyphens. -/
def UUID.chars (u : UUID) : List Char :=
  hexByte (u 0) ++ hexByte (u 1) ++ hexByte (u 2) ++ hexByte (u 3) ++ ['-'] ++
  hexByte (u 4) ++ hexByte (u 5) ++ ['-'] ++
  hexByte (u 6) ++ hexByte (u 7) ++ ['-'] ++
  hexByte (u 8) ++ hexByte (u 9) ++ ['-'] ++
  hexByte (u 10) ++ hexByte (u 11) ++ hexByte (u 12) ++ hexByte (u 13) ++
  hexByte (u 14) ++ hexByte (u 15)

/-- The method `UUID.String()`. -/
def UUID.String (u : UUID) : String := String.mk u.chars

/-! ## The appliance and the world -/

/-- A remote call issued by the program, with the arguments it sends. -/
inductive Call where
  | S3CreateBucket (cfg : Config) (bucket : String)
  | S3DeleteBucket (cfg : Config) (bucket : String)
  | IamCreateUser (userName : String)
  | IamAttachUserPolicy (userName : String) (policyArn : String)
  | IamCreateAccessKey (userName : String)
  deriving DecidableEq, Repr

/-- The behaviour of the appliance behind the SDK clients: each remote operation maps
its arguments and the appliance state to an answer and the next state.  The `User` and
`AccessKey` fields of a successful IAM answer are pointers, hence the `Option`. -/
structure Appliance (σ : Type) where
  s3CreateBucket : Config → String → σ → Except GoError CreateBucketOutput × σ
  s3DeleteBucket : Config → String → σ → Except GoError DeleteBucketOutput × σ
  iamCreateUser : String → σ → Except GoError (Option User) × σ
  iamAttachUserPolicy : String → String → σ → Except GoError Unit × σ
  iamCreateAccessKey : String → σ → Except GoError (Option AccessKey) × σ

/-- Everything outside the process that a handler can change. -/
structure World (σ : Type) where
  appliance : σ
  calls : List Call
  stdout : List String

/-- The effect of `fmt.Println(line)`. -/
def World.println {σ : Type} (w : World σ) (line : String) : World σ :=
  { w with stdout := w.stdout ++ [line] }

/-- Record a remote call and the appliance state it leaves. -/
def World.called {σ : Type} (w : World σ) (c : Call) (next : σ) : World σ :=
  { w with appliance := next, calls := w.calls ++ [c] }

/-- Declarations of package `objectscale` that live in files other than
`iamService.go`: the constant `DefaultRegion` and the function
`HandleError(err error) error`, whose result may be nil. -/
structure Objectscale where
  DefaultRegion : String
  HandleError : GoError → Option GoError

/-! ## `pkg/objectscale/iamService.go` -/

def s3FullPoilicyArn : String := "urn:osc:iam:::policy/OSCS3FullAccess"

/-- The method `CreateUser`; the result is the Go pair `(*iam.User, error)`. -/
def IamService.CreateUser {σ : Type} (pkg : Objectscale) (A : Appliance σ)
    (username : String) (w : World σ) : (Option User × Option GoError) × World σ :=
  match A.iamCreateUser username w.appliance with
  | (Except.error err, next) =>
      ((none, pkg.HandleError err), w.called (Call.IamCreateUser username) next)
  | (Except.ok res, next) =>
      ((res, none), w.called (Call.IamCreateUser username) next)

/-- The method `AttachUserPolicy`; the result is the Go `error`. -/
def IamService.AttachUserPolicy {σ : Type} (pkg : Objectscale) (A : Appliance σ)
    (username : String) (w : World σ) : Option GoError × World σ :=
  match A.iamAttachUserPolicy username s3FullPoilicyArn w.appliance with
  | (Except.error err, next) =>
      (pkg.HandleError err,
        w.called (Call.IamAttachUserPolicy username s3FullPoilicyArn) next)
  | (Except.ok _, next) =>
      (none, w.called (Call.IamAttachUserPolicy username s3FullPoilicyArn) next)

/-- The method `CreateAccessKey`; the result is the Go pair `(*iam.AccessKey, error)`. -/
def IamService.CreateAccessKey {σ : Type} (pkg : Objectscale) (A : Appliance σ)
    (username : String) (w : World σ) : (Option AccessKey × Option GoError) × World σ :=
  match A.iamCreateAccessKey username w.appliance with
  | (Except.error err, next) =>
      ((none, pkg.HandleError err), w.called (Call.IamCreateAccessKey username) next)
  | (Except.ok res, next) =>
      ((res, none), w.called (Call.IamCreateAccessKey username) next)

/-! ## `pkg/provisioner.go` -/

/-- The server value.  Its field `objectScaleClient` is the handle to the appliance,
which the handlers here receive as their `Appliance` argument. -/
structure ProvisionerServer where
  provisioner : String
  endpoint : String
  accessKeyId : String
  secretKeyId : String
  deriving DecidableEq, Repr

def getS3Region (pkg : Objectscale) (protocol : Option Protocol) : String :=
  if protocol ≠ none ∧ Protocol.GetS3 protocol ≠ none ∧
      S3.GetRegion (Protocol.GetS3 protocol) ≠ "" then
    S3.GetRegion (Protocol.GetS3 protocol)
  else
    pkg.DefaultRegion

/-- The `aws.Config` both bucket handlers build, up to the region. -/
def s3Config (s : ProvisionerServer) (region : String) : Config :=
  { Credentials := { id := s.accessKeyId, secret := s.secretKeyId, token := "" }
    Endpoint := s.endpoint
    Region := region
    DisableSSL := true
    S3ForcePathStyle := true }

def ProvisionerCreateBucket {σ : Type} (pkg : Objectscale) (A : Appliance σ)
    (s : ProvisionerServer) (req : Option ProvisionerCreateBucketRequest) (w : World σ) :
    Except Status ProvisionerCreateBucketResponse × World σ :=
  let name := ProvisionerCreateBucketRequest.GetName req
  let w := w.println ("Creating bucket " ++ name)
  let cfg := s3Config s (getS3Region pkg (ProvisionerCreateBucketRequest.GetProtocol req))
  match A.s3CreateBucket cfg name w.appliance with
  | (Except.error err, next) =>
      let w := (w.called (Call.S3CreateBucket cfg name) next).println err.text
      (Except.error ⟨Code.Internal, "ProvisionerCreateBucket: operation failed"⟩, w)
  | (Except.ok out, next) =>
      let w := (w.called (Call.S3CreateBucket cfg name) next).println
        ("Created bucket " ++ name ++ " : " ++ out.goString)
      (Except.ok { BucketId := name }, w)

def ProvisionerDeleteBucket {σ : Type} (pkg : Objectscale) (A : Appliance σ)
    (s : ProvisionerServer) (req : Option ProvisionerDeleteBucketRequest) (w : World σ) :
    Except Status ProvisionerDeleteBucketResponse × World σ :=
  let bucketId := ProvisionerDeleteBucketRequest.GetBucketId req
  let w := w.println ("Deleting bucket id " ++ bucketId)
  let cfg := s3Config s (getS3Region pkg none)
  match A.s3DeleteBucket cfg bucketId w.appliance with
  | (Except.error err, next) =>
      let w := (w.called (Call.S3DeleteBucket cfg bucketId) next).println err.text
      (Except.error ⟨Code.Internal, "ProvisionerDeleteBucket: operation failed"⟩, w)
  | (Except.ok out, next) =>
      let w := (w.called (Call.S3DeleteBucket cfg bucketId) next).println
        ("Deleted bucket id " ++ bucketId ++ " : " ++ out.goString)
      (Except.ok {}, w)

/-- The effect of `if err != nil { fmt.Println(err.Error()) }`. -/
def logIfError {σ : Type} (err : Option GoError) (w : World σ) : World σ :=
  match err with
  | some e => w.println e.text
  | none => w

/-- The `Credentials` string the grant handler concatenates. -/
def credentialsText (endpoint accessKey secretKey bucketId : String) : String :=
  "\x7b\"endpoint\":\"" ++ endpoint ++
  "\", \"accessKeyId\":\"" ++ accessKey ++
  "\", \"secretKeyId\": \"" ++ secretKey ++
  "\", \"bucket\": \"" ++ bucketId ++
  "\"\x7d"

/-- The statements `accessKey = *cred.AccessKeyId` and
`secretKey = *cred.SecretAccessKey` under the guard `cred != nil`: the pair of strings
they leave in the two variables, or nothing when a dereferenced field is nil and the
program panics. -/
def readCredential (cred : Option AccessKey) : Option (String × String) :=
  match cred with
  | none => some ("", "")
  | some c =>
    match c.AccessKeyId with
    | none => none
    | some accessKey =>
      match c.SecretAccessKey with
      | none => none
      | some secretKey => some (accessKey, secretKey)

/-- The grant handler.  `nameUuid` is the value `uuid.NewV4()` returned; its error is
dropped by the program.  The handler has no `return` with an error status; it ends with
a response, or in a panic when the appliance hands back a key with a nil field. -/
def ProvisionerGrantBucketAccess {σ : Type} (pkg : Objectscale) (A : Appliance σ)
    (s : ProvisionerServer) (nameUuid : UUID)
    (req : Option ProvisionerGrantBucketAccessRequest) (w : World σ) :
    Except Failure ProvisionerGrantBucketAccessResponse × World σ :=
  let username := "cosi-" ++ nameUuid.String
  let r1 := IamService.CreateUser pkg A username w
  let w := logIfError r1.1.2 r1.2
  let r2 := IamService.AttachUserPolicy pkg A username w
  let w := logIfError r2.1 r2.2
  let r3 := IamService.CreateAccessKey pkg A username w
  let w := logIfError r3.1.2 r3.2
  let cred : Option AccessKey := r3.1.1
  match readCredential cred with
  | none => (Except.error Failure.panic, w)
  | some (accessKey, secretKey) =>
    (Except.ok
      { AccountId := "test_acc"
        Credentials := credentialsText s.endpoint accessKey secretKey
          (ProvisionerGrantBucketAccessRequest.GetBucketId req) }, w)

def ProvisionerRevokeBucketAccess {σ : Type}
    (_req : Option ProvisionerRevokeBucketAccessRequest) (w : World σ) :
    Except Status ProvisionerRevokeBucketAccessResponse × World σ :=
  (Except.error ⟨Code.Unimplemented, "ProvisionerCreateBucket: not implemented"⟩, w)

/-! ## A reference appliance

A concrete appliance behaviour used to run the handlers on explicit states: buckets,
principals, policy attachments and access keys kept as lists, with the error codes the
S3 and IAM services document, and a switch that makes `CreateAccessKey` fail. -/

/-- The state of the reference appliance. -/
structure Store where
  buckets : List String
  principals : List String
  attachments : List (String × String)
  accessKeys : List (String × AccessKey)
  failCreateAccessKey : Bool
  deriving DecidableEq, Repr

/-- The reference appliance with nothing on it. -/
def Store.empty : Store :=
  { buckets := [], principals := [], attachments := [], accessKeys := [],
    failCreateAccessKey := false }

def Store.s3CreateBucket (_cfg : Config) (bucket : String) (st : Store) :
    Except GoError CreateBucketOutput × Store :=
  if bucket ∈ st.buckets then
    (Except.error ⟨"BucketAlreadyExists", "BucketAlreadyExists: " ++ bucket⟩, st)
  else
    (Except.ok ⟨"/" ++ bucket⟩, { st with buckets := bucket :: st.buckets })

def Store.s3DeleteBucket (_cfg : Config) (bucket : String) (st : Store) :
    Except GoError DeleteBucketOutput × Store :=
  if bucket ∈ st.buckets then
    (Except.ok ⟨""⟩, { st with buckets := st.buckets.erase bucket })
  else
    (Except.error ⟨"NoSuchBucket", "NoSuchBucket: " ++ bucket⟩, st)

def Store.iamCreateUser (userName : String) (st : Store) :
    Except GoError (Option User) × Store :=
  if userName ∈ st.principals then
    (Except.error ⟨"EntityAlreadyExists", "EntityAlreadyExists: " ++ userName⟩, st)
  else
    (Except.ok (some ⟨userName⟩), { st with principals := userName :: st.principals })

def Store.iamAttachUserPolicy (userName policyArn : String) (st : Store) :
    Except GoError Unit × Store :=
  if userName ∈ st.principals then
    if (userName, policyArn) ∈ st.attachments then
      (Except.ok (), st)
    else
      (Except.ok (), { st with attachments := (userName, policyArn) :: st.attachments })
  else
    (Except.error ⟨"NoSuchEntity", "NoSuchEntity: " ++ userName⟩, st)

def Store.iamCreateAccessKey (userName : String) (st : Store) :
    Except GoError (Option AccessKey) × Store :=
  if st.failCreateAccessKey then
    (Except.error ⟨"ServiceFailure", "ServiceFailure: " ++ userName⟩, st)
  else if userName ∈ st.principals then
    let key : AccessKey :=
      ⟨some ("AK" ++ toString st.accessKeys.length),
        some ("SK" ++ toString st.accessKeys.length)⟩
    (Except.ok (some key), { st with accessKeys := (userName, key) :: st.accessKeys })
  else
    (Except.error ⟨"NoSuchEntity", "NoSuchEntity: " ++ userName⟩, st)

/-- The reference appliance as an `Appliance`. -/
def Store.appliance : Appliance Store :=
  { s3CreateBucket := Store.s3CreateBucket
    s3DeleteBucket := Store.s3DeleteBucket
    iamCreateUser := Store.iamCreateUser
    iamAttachUserPolicy := Store.iamAttachUserPolicy
    iamCreateAccessKey := Store.iamCreateAccessKey }

/-- An appliance on which every operation fails with the given error. -/
def failing (e : GoError) : Appliance Unit :=
  { s3CreateBucket := fun _ _ u => (Except.error e, u)
    s3DeleteBucket := fun _ _ u => (Except.error e, u)
    iamCreateUser := fun _ u => (Except.error e, u)
    iamAttachUserPolicy := fun _ _ u => (Except.error e, u)
    iamCreateAccessKey := fun _ u => (Except.error e, u) }

/-- A world around the reference appliance in which nothing has happened yet. -/
def World.start (st : Store) : World Store :=
  { appliance := st, calls := [], stdout := [] }

/-- A sample setting of the `objectscale` package parameters. -/
def samplePkg : Objectscale :=
  { DefaultRegion := "us-east-1", HandleError := fun e => some e }

/-- A sample server configuration. -/
def sampleServer : ProvisionerServer :=
  { provisioner := "sample", endpoint := "http://os:9020", accessKeyId := "admin",
    secretKeyId := "pw" }

/-! ## Reading the credential envelope

The envelope is meant to be parsed as JSON by the caller.  `Json.decodeObject` is a
reader for the fragment that matters here, following RFC 8259: an object whose
members all have string values. -/

namespace Json

/-- One decoded piece of a string literal: a character, or the UTF-16 code unit of a
`\uXXXX` escape. -/
inductive Item where
  | ch (c : Char)
  | unit (n : Nat)
  deriving DecidableEq, Repr

/-- White space of RFC 8259: space, tab, line feed, carriage return. -/
def isWs (c : Char) : Bool :=
  c = ' ' || c = '\t' || c = '\n' || c = '\r'

def skipWs : List Char → List Char
  | [] => []
  | c :: cs => if isWs c then skipWs cs else c :: cs

def hexVal (c : Char) : Option Nat :=
  if 48 ≤ c.toNat ∧ c.toNat ≤ 57 then some (c.toNat - 48)
  else if 97 ≤ c.toNat ∧ c.toNat ≤ 102 then some (c.toNat - 87)
  else if 65 ≤ c.toNat ∧ c.toNat ≤ 70 then some (c.toNat - 55)
  else none

def hex4 (a b c d : Char) : Option Nat :=
  match hexVal a, hexVal b, hexVal c, hexVal d with
  | some x, some y, some z, some u => some (((x * 16 + y) * 16 + z) * 16 + u)
  | _, _, _, _ => none

/-- The character a two-character escape stands for. -/
def unescape (e : Char) : Option Char :=
  if e = '"' then some '"'
  else if e = '\\' then some '\\'
  else if e = '/' then some '/'
  else if e = 'b' then some (Char.ofNat 8)
  else if e = 'f' then some (Char.ofNat 12)
  else if e = 'n' then some (Char.ofNat 10)
  else if e = 'r' then some (Char.ofNat 13)
  else if e = 't' then some (Char.ofNat 9)
  else none

/-- Read a string literal after its opening quote, up to and including the closing
quote: the decoded pieces and the input left.  An unescaped quote ends the literal, a
backslash starts an escape, a control character is refused. -/
def stringItems : List Char → Option (List Item × List Char)
  | [] => none
  | c :: rest =>
    if c = '"' then some ([], rest)
    else if c = '\\' then
      match rest with
      | [] => none
      | e :: rest1 =>
        if e = 'u' then
          match rest1 with
          | a :: b :: c2 :: d :: rest2 =>
            match hex4 a b c2 d, stringItems rest2 with
            | some n, some (items, r) => some (Item.unit n :: items, r)
            | _, _ => none
          | _ => none
        else
          match unescape e, stringItems rest1 with
          | some ch, some (items, r) => some (Item.ch ch :: items, r)
          | _, _ => none
    else if c.toNat < 32 then none
    else
      match stringItems rest with
      | some (items, r) => some (Item.ch c :: items, r)
      | none => none

/-- The character of a code unit that is not a high surrogate; a lone low surrogate
reads as U+FFFD. -/
def unitChar (n : Nat) : Char :=
  if 0xDC00 ≤ n ∧ n < 0xE000 then Char.ofNat 0xFFFD else Char.ofNat n

/-- What a high surrogate left waiting turns into when no low surrogate follows. -/
def flush : Option Nat → List Char
  | some _ => [Char.ofNat 0xFFFD]
  | none => []

/-- Turn the pieces into characters, joining surrogate pairs.  The first argument is a
high surrogate waiting for its low half. -/
def assembleFrom : Option Nat → List Item → List Char
  | pending, [] => flush pending
  | pending, Item.ch c :: rest => flush pending ++ c :: assembleFrom none rest
  | pending, Item.unit n :: rest =>
    match pending with
    | some hi =>
      if 0xDC00 ≤ n ∧ n < 0xE000 then
        Char.ofNat (0x10000 + (hi - 0xD800) * 0x400 + (n - 0xDC00)) :: assembleFrom none rest
      else if 0xD800 ≤ n ∧ n < 0xDC00 then
        Char.ofNat 0xFFFD :: assembleFrom (some n) rest
      else
        Char.ofNat 0xFFFD :: unitChar n :: assembleFrom none rest
    | none =>
      if 0xD800 ≤ n ∧ n < 0xDC00 then assembleFrom (some n) rest
      else unitChar n :: assembleFrom none rest

/-- Turn the pieces of a string literal into its characters. -/
def assemble (items : List Item) : List Char :=
  assembleFrom none items

/-- Read a string literal, opening quote included. -/
def string : List Char → Option (String × List Char)
  | [] => none
  | c :: rest =>
    if c = '"' then
      match stringItems rest with
      | some (items, r) => some (String.mk (assemble items), r)
      | none => none
    else none

/-- Read `member (, member)* }` where a member is `string : string`.  The first
argument bounds the number of members; the input length is always enough. -/
def members : Nat → List Char → Option (List (String × String) × List Char)
  | 0, _ => none
  | fuel + 1, cs =>
    match string cs with
    | none => none
    | some (k, r1) =>
      match skipWs r1 with
      | [] => none
      | c :: r2 =>
        if c = ':' then
          match string (skipWs r2) with
          | none => none
          | some (v, r3) =>
            match skipWs r3 with
            | [] => none
            | d :: r4 =>
              if d = '}' then some ([(k, v)], r4)
              else if d = ',' then
                match members fuel (skipWs r4) with
                | some (ms, r5) => some ((k, v) :: ms, r5)
                | none => none
              else none
        else none

/-- Read a whole JSON text that is an object with string values only. -/
def object (cs : List Char) : Option (List (String × String)) :=
  match skipWs cs with
  | [] => none
  | c :: r =>
    if c = '{' then
      match skipWs r with
      | [] => none
      | d :: r1 =>
        if d = '}' then (if skipWs r1 = [] then some [] else none)
        else
          match members cs.length (d :: r1) with
          | some (ms, r2) => if skipWs r2 = [] then some ms else none
          | none => none
    else none

/-- The members of the JSON object a text denotes, if it is one with string values. -/
def decodeObject (s : String) : Option (List (String × String)) :=
  object s.data

/-- A character that stands for itself inside a JSON string literal. -/
def plainChar (c : Char) : Bool :=
  c ≠ '"' && c ≠ '\\' && 32 ≤ c.toNat

/-- A text that needs no escaping to sit inside a JSON string literal. -/
def plain (s : String) : Bool :=
  s.data.all plainChar

end Json

/-- What the specification asks of the envelope: it reads as a JSON object with exactly
the members `endpoint`, `accessKeyId`, `secretKeyId`, `bucket`, holding the given
values, and it does not end in white space. -/
def isEnvelopeFor (text endpoint accessKey secretKey bucketId : String) : Prop :=
  Json.decodeObject text =
      some [("endpoint", endpoint), ("accessKeyId", accessKey), ("secretKeyId", secretKey),
        ("bucket", bucketId)] ∧
    (text.data.getLast?.map Json.isWs) = some false

/-! ## The textual form of a UUID -/

/-- A lowercase hexadecimal digit. -/
def isLowerHex (c : Char) : Bool :=
  (48 ≤ c.toNat && c.toNat ≤ 57) || (97 ≤ c.toNat && c.toNat ≤ 102)

/-- Drop `n` lowercase hexadecimal digits from the front, if they are there. -/
def hexRun : Nat → List Char → Option (List Char)
  | 0, cs => some cs
  | _ + 1, [] => none
  | n + 1, c :: cs => if isLowerHex c then hexRun n cs else none

/-- Drop a hyphen from the front, if it is there. -/
def hyphen : List Char → Option (List Char)
  | [] => none
  | c :: cs => if c = '-' then some cs else none

/-- The canonical textual form: lowercase hex digits in hyphenated groups of
8, 4, 4, 4 and 12, and nothing else. -/
def isCanonicalUUIDText (cs : List Char) : Bool :=
  (hexRun 8 cs >>= hyphen >>= hexRun 4 >>= hyphen >>= hexRun 4 >>= hyphen >>= hexRun 4
    >>= hyphen >>= hexRun 12) = some []

/-- The value of a lowercase hexadecimal digit. -/
def hexDigitValue (c : Char) : Option Nat :=
  if 48 ≤ c.toNat ∧ c.toNat ≤ 57 then some (c.toNat - 48)
  else if 97 ≤ c.toNat ∧ c.toNat ≤ 102 then some (c.toNat - 87)
  else none

/-- Read `n` bytes written as two lowercase hexadecimal digits each, high digit first:
the byte values and the input left. -/
def readBytes : Nat → List Char → Option (List Nat × List Char)
  | 0, cs => some ([], cs)
  | n + 1, hi :: lo :: cs =>
    match hexDigitValue hi, hexDigitValue lo, readBytes n cs with
    | some h, some l, some (bs, rest) => some ((16 * h + l) :: bs, rest)
    | _, _, _ => none
  | _ + 1, _ => none

/-- Read a UUID from its canonical text: groups of 4, 2, 2, 2 and 6 bytes in lowercase
hexadecimal, separated by hyphens, and nothing after them.  The answer is the sixteen
byte values in order. -/
def decodeUUIDText (cs : List Char) : Option (List Nat) := do
  let (g1, r) ← readBytes 4 cs
  let r ← hyphen r
  let (g2, r) ← readBytes 2 r
  let r ← hyphen r
  let (g3, r) ← readBytes 2 r
  let r ← hyphen r
  let (g4, r) ← readBytes 2 r
  let r ← hyphen r
  let (g5, r) ← readBytes 6 r
  if r = [] then some (g1 ++ g2 ++ g3 ++ g4 ++ g5) else none

/-- The sixteen byte values of a UUID, in order. -/
def UUID.bytes (u : UUID) : List Nat :=
  [(u 0).val, (u 1).val, (u 2).val, (u 3).val, (u 4).val, (u 5).val, (u 6).val, (u 7).val,
   (u 8).val, (u 9).val, (u 10).val, (u 11).val, (u 12).val, (u 13).val, (u 14).val,
   (u 15).val]

/-- The lowercase hexadecimal digits of a list of byte values, two per byte. -/
def hexOfBytes : List Nat → List Char
  | [] => []
  | b :: bs => hextable (b / 16) :: hextable (b % 16) :: hexOfBytes bs

/-! ## Shared lemmas -/

theorem logIfError_calls {σ : Type} (err : Option GoError) (w : World σ) :
    (logIfError err w).calls = w.calls := by
  cases err <;> rfl

theorem logIfError_appliance {σ : Type} (err : Option GoError) (w : World σ) :
    (logIfError err w).appliance = w.appliance := by
  cases err <;> rfl

theorem createUser_world {σ : Type} (pkg : Objectscale) (A : Appliance σ) (u : String) (w : World σ) :
    (IamService.CreateUser pkg A u w).2 =
      w.called (Call.IamCreateUser u) (A.iamCreateUser u w.appliance).2 := by
  unfold IamService.CreateUser
  rcases h : A.iamCreateUser u w.appliance with ⟨r, next⟩
  cases r <;> rfl

theorem attachUserPolicy_world {σ : Type} (pkg : Objectscale) (A : Appliance σ) (u : String)
    (w : World σ) :
    (IamService.AttachUserPolicy pkg A u w).2 =
      w.called (Call.IamAttachUserPolicy u s3FullPoilicyArn)
        (A.iamAttachUserPolicy u s3FullPoilicyArn w.appliance).2 := by
  unfold IamService.AttachUserPolicy
  rcases h : A.iamAttachUserPolicy u s3FullPoilicyArn w.appliance with ⟨r, next⟩
  cases r <;> rfl

theorem createAccessKey_world {σ : Type} (pkg : Objectscale) (A : Appliance σ) (u : String)
    (w : World σ) :
    (IamService.CreateAccessKey pkg A u w).2 =
      w.called (Call.IamCreateAccessKey u) (A.iamCreateAccessKey u w.appliance).2 := by
  unfold IamService.CreateAccessKey
  rcases h : A.iamCreateAccessKey u w.appliance with ⟨r, next⟩
  cases r <;> rfl

/-- The world a grant leaves does not depend on how the handler ends. -/
theorem grant_world {σ : Type} (pkg : Objectscale) (A : Appliance σ)
    (s : ProvisionerServer) (nameUuid : UUID)
    (req : Option ProvisionerGrantBucketAccessRequest) (w : World σ) :
    (ProvisionerGrantBucketAccess pkg A s nameUuid req w).2 =
      logIfError
        (IamService.CreateAccessKey pkg A ("cosi-" ++ nameUuid.String)
          (logIfError
            (IamService.AttachUserPolicy pkg A ("cosi-" ++ nameUuid.String)
              (logIfError (IamService.CreateUser pkg A ("cosi-" ++ nameUuid.String) w).1.2
                (IamService.CreateUser pkg A ("cosi-" ++ nameUuid.String) w).2)).1
            (IamService.AttachUserPolicy pkg A ("cosi-" ++ nameUuid.String)
              (logIfError (IamService.CreateUser pkg A ("cosi-" ++ nameUuid.String) w).1.2
                (IamService.CreateUser pkg A ("cosi-" ++ nameUuid.String) w).2)).2)).1.2
        (IamService.CreateAccessKey pkg A ("cosi-" ++ nameUuid.String)
          (logIfError
            (IamService.AttachUserPolicy pkg A ("cosi-" ++ nameUuid.String)
              (logIfError (IamService.CreateUser pkg A ("cosi-" ++ nameUuid.String) w).1.2
                (IamService.CreateUser pkg A ("cosi-" ++ nameUuid.String) w).2)).1
            (IamService.AttachUserPolicy pkg A ("cosi-" ++ nameUuid.String)
              (logIfError (IamService.CreateUser pkg A ("cosi-" ++ nameUuid.String) w).1.2
                (IamService.CreateUser pkg A ("cosi-" ++ nameUuid.String) w).2)).2)).2 := by
  unfold ProvisionerGrantBucketAccess
  simp only []
  split <;> rfl

/-- The remote calls of a grant: always the same three, whatever the appliance answers. -/
theorem grant_calls {σ : Type} (pkg : Objectscale) (A : Appliance σ) (s : ProvisionerServer)
    (nameUuid : UUID) (req : Option ProvisionerGrantBucketAccessRequest) (w : World σ) :
    (ProvisionerGrantBucketAccess pkg A s nameUuid req w).2.calls =
      w.calls ++
        [Call.IamCreateUser ("cosi-" ++ nameUuid.String),
         Call.IamAttachUserPolicy ("cosi-" ++ nameUuid.String) s3FullPoilicyArn,
         Call.IamCreateAccessKey ("cosi-" ++ nameUuid.String)] := by
  rw [grant_world]
  simp [logIfError_calls, createUser_world, attachUserPolicy_world, createAccessKey_world,
    World.called]

/-- The appliance state a grant leaves: the one the three calls produce in turn. -/
theorem grant_appliance {σ : Type} (pkg : Objectscale) (A : Appliance σ) (s : ProvisionerServer)
    (nameUuid : UUID) (req : Option ProvisionerGrantBucketAccessRequest) (w : World σ) :
    (ProvisionerGrantBucketAccess pkg A s nameUuid req w).2.appliance =
      (A.iamCreateAccessKey ("cosi-" ++ nameUuid.String)
        (A.iamAttachUserPolicy ("cosi-" ++ nameUuid.String) s3FullPoilicyArn
          (A.iamCreateUser ("cosi-" ++ nameUuid.String) w.appliance).2).2).2 := by
  rw [grant_world]
  simp [logIfError_appliance, createUser_world, attachUserPolicy_world,
    createAccessKey_world, World.called]

/-- The grant handler has no path that returns an error status: whatever the appliance
answers, it ends with a response or in a panic. -/
theorem grant_never_returns_status {σ : Type} (pkg : Objectscale) (A : Appliance σ)
    (s : ProvisionerServer) (nameUuid : UUID)
    (req : Option ProvisionerGrantBucketAccessRequest) (w : World σ) (st : Status) :
    (ProvisionerGrantBucketAccess pkg A s nameUuid req w).1 ≠
      Except.error (Failure.status st) := by
  unfold ProvisionerGrantBucketAccess
  simp only []
  split <;> simp

theorem getS3Region_none (pkg : Objectscale) : getS3Region pkg none = pkg.DefaultRegion := by
  simp [getS3Region]

/-! ## Bucket handlers -/

/-- C7: whenever the S3 CreateBucket call the handler issues succeeds, the handler
returns no error and a response whose BucketId is the request's name, and the bucket
name it sent to the appliance is that same name. -/
theorem createBucket_success_returns_name {σ : Type} (pkg : Objectscale) (A : Appliance σ)
    (s : ProvisionerServer) (req : Option ProvisionerCreateBucketRequest) (w : World σ)
    (out : CreateBucketOutput) (next : σ)
    (h : A.s3CreateBucket
        (s3Config s (getS3Region pkg (ProvisionerCreateBucketRequest.GetProtocol req)))
        (ProvisionerCreateBucketRequest.GetName req) w.appliance = (Except.ok out, next)) :
    (ProvisionerCreateBucket pkg A s req w).1 =
        Except.ok { BucketId := ProvisionerCreateBucketRequest.GetName req } ∧
      (ProvisionerCreateBucket pkg A s req w).2.calls =
        w.calls ++
          [Call.S3CreateBucket
            (s3Config s (getS3Region pkg (ProvisionerCreateBucketRequest.GetProtocol req)))
            (ProvisionerCreateBucketRequest.GetName req)] := by
  simp [ProvisionerCreateBucket, World.println, World.called, h]

theorem createBucket_success_returns_name_witness :
    Store.appliance.s3CreateBucket
        (s3Config sampleServer (getS3Region samplePkg
          (ProvisionerCreateBucketRequest.GetProtocol (some ⟨"b1", none⟩))))
        (ProvisionerCreateBucketRequest.GetName (some ⟨"b1", none⟩))
        (World.start Store.empty).appliance =
          (Except.ok ⟨"/b1"⟩, { Store.empty with buckets := ["b1"] }) ∧
      (ProvisionerCreateBucket samplePkg Store.appliance sampleServer (some ⟨"b1", none⟩)
          (World.start Store.empty)).1 = Except.ok { BucketId := "b1" } :=
  ⟨rfl, (createBucket_success_returns_name samplePkg Store.appliance sampleServer
    (some ⟨"b1", none⟩) (World.start Store.empty) ⟨"/b1"⟩
    { Store.empty with buckets := ["b1"] } rfl).1⟩

/-- C8: `getS3Region` returns the region of the protocol's S3 section when the protocol
is non-nil, has an S3 section and the region is non-empty; for a nil protocol, a
protocol without S3 section, or an empty region it returns `DefaultRegion`; and the
delete handler, which passes nil, always calls S3 with `DefaultRegion`. -/
theorem getS3Region_spec {σ : Type} (pkg : Objectscale) (A : Appliance σ)
    (s : ProvisionerServer) (req : Option ProvisionerDeleteBucketRequest) (w : World σ) :
    (∀ sec : S3, sec.Region ≠ "" →
        getS3Region pkg (some ⟨some (ProtocolType.s3 (some sec))⟩) = sec.Region) ∧
      getS3Region pkg none = pkg.DefaultRegion ∧
      (∀ p : Protocol, Protocol.GetS3 (some p) = none →
        getS3Region pkg (some p) = pkg.DefaultRegion) ∧
      (∀ sec : S3, sec.Region = "" →
        getS3Region pkg (some ⟨some (ProtocolType.s3 (some sec))⟩) = pkg.DefaultRegion) ∧
      (ProvisionerDeleteBucket pkg A s req w).2.calls =
        w.calls ++
          [Call.S3DeleteBucket (s3Config s pkg.DefaultRegion)
            (ProvisionerDeleteBucketRequest.GetBucketId req)] := by
  refine ⟨?_, getS3Region_none pkg, ?_, ?_, ?_⟩
  · intro sec h
    simp [getS3Region, Protocol.GetS3, S3.GetRegion, h]
  · intro p h
    simp [getS3Region, h]
  · intro sec h
    simp [getS3Region, Protocol.GetS3, S3.GetRegion, h]
  · unfold ProvisionerDeleteBucket
    rw [getS3Region_none]
    rcases h : A.s3DeleteBucket (s3Config s pkg.DefaultRegion)
      (ProvisionerDeleteBucketRequest.GetBucketId req) w.appliance with ⟨r, next⟩
    cases r <;> simp [World.println, World.called, h]

theorem getS3Region_spec_witness :
    getS3Region samplePkg (some ⟨some (ProtocolType.s3 (some ⟨"eu-west-1"⟩))⟩) = "eu-west-1" ∧
      getS3Region samplePkg (some ⟨some ProtocolType.gcs⟩) = "us-east-1" ∧
      getS3Region samplePkg (some ⟨some (ProtocolType.s3 (some ⟨""⟩))⟩) = "us-east-1" :=
  ⟨(getS3Region_spec samplePkg Store.appliance sampleServer none
      (World.start Store.empty)).1 ⟨"eu-west-1"⟩ (by decide),
   (getS3Region_spec samplePkg Store.appliance sampleServer none
      (World.start Store.empty)).2.2.1 ⟨some ProtocolType.gcs⟩ rfl,
   (getS3Region_spec samplePkg Store.appliance sampleServer none
      (World.start Store.empty)).2.2.2.1 ⟨""⟩ rfl⟩

/-- C10: for both bucket handlers and any request, if the S3 call fails in two runs
with appliance errors `e1` and `e2`, the status returned to the caller (code and
message) is the same in both runs: a fixed `Internal` status whose message is a
constant of the program, built without reading the appliance error. -/
theorem bucket_status_independent_of_error {σ τ : Type} (pkg : Objectscale)
    (A1 : Appliance σ) (A2 : Appliance τ) (s : ProvisionerServer)
    (creq : Option ProvisionerCreateBucketRequest)
    (dreq : Option ProvisionerDeleteBucketRequest)
    (w1 : World σ) (w2 : World τ) (e1 e2 : GoError) (n1 : σ) (n2 : τ) :
    (A1.s3CreateBucket
          (s3Config s (getS3Region pkg (ProvisionerCreateBucketRequest.GetProtocol creq)))
          (ProvisionerCreateBucketRequest.GetName creq) w1.appliance = (Except.error e1, n1) →
        A2.s3CreateBucket
          (s3Config s (getS3Region pkg (ProvisionerCreateBucketRequest.GetProtocol creq)))
          (ProvisionerCreateBucketRequest.GetName creq) w2.appliance = (Except.error e2, n2) →
        (ProvisionerCreateBucket pkg A1 s creq w1).1 =
            (ProvisionerCreateBucket pkg A2 s creq w2).1 ∧
          (ProvisionerCreateBucket pkg A1 s creq w1).1 =
            Except.error ⟨Code.Internal, "ProvisionerCreateBucket: operation failed"⟩) ∧
      (A1.s3DeleteBucket (s3Config s (getS3Region pkg none))
          (ProvisionerDeleteBucketRequest.GetBucketId dreq) w1.appliance =
            (Except.error e1, n1) →
        A2.s3DeleteBucket (s3Config s (getS3Region pkg none))
          (ProvisionerDeleteBucketRequest.GetBucketId dreq) w2.appliance =
            (Except.error e2, n2) →
        (ProvisionerDeleteBucket pkg A1 s dreq w1).1 =
            (ProvisionerDeleteBucket pkg A2 s dreq w2).1 ∧
          (ProvisionerDeleteBucket pkg A1 s dreq w1).1 =
            Except.error ⟨Code.Internal, "ProvisionerDeleteBucket: operation failed"⟩) := by
  constructor
  · intro h1 h2
    simp [ProvisionerCreateBucket, World.println, h1, h2]
  · intro h1 h2
    simp [ProvisionerDeleteBucket, World.println, h1, h2]

theorem bucket_status_independent_of_error_witness :
    (ProvisionerCreateBucket samplePkg (failing ⟨"AccessDenied", "secret detail one"⟩)
          sampleServer (some ⟨"b1", none⟩) ⟨(), [], []⟩).1 =
        (ProvisionerCreateBucket samplePkg (failing ⟨"SlowDown", "other detail"⟩)
          sampleServer (some ⟨"b1", none⟩) ⟨(), [], []⟩).1 ∧
      (ProvisionerDeleteBucket samplePkg (failing ⟨"AccessDenied", "secret detail one"⟩)
          sampleServer (some ⟨"b1"⟩) ⟨(), [], []⟩).1 =
        (ProvisionerDeleteBucket samplePkg (failing ⟨"SlowDown", "other detail"⟩)
          sampleServer (some ⟨"b1"⟩) ⟨(), [], []⟩).1 :=
  ⟨((bucket_status_independent_of_error samplePkg
      (failing ⟨"AccessDenied", "secret detail one"⟩) (failing ⟨"SlowDown", "other detail"⟩)
      sampleServer (some ⟨"b1", none⟩) (some ⟨"b1"⟩) ⟨(), [], []⟩ ⟨(), [], []⟩
      ⟨"AccessDenied", "secret detail one"⟩ ⟨"SlowDown", "other detail"⟩ () ()).1 rfl rfl).1,
   ((bucket_status_independent_of_error samplePkg
      (failing ⟨"AccessDenied", "secret detail one"⟩) (failing ⟨"SlowDown", "other detail"⟩)
      sampleServer (some ⟨"b1", none⟩) (some ⟨"b1"⟩) ⟨(), [], []⟩ ⟨(), [], []⟩
      ⟨"AccessDenied", "secret detail one"⟩ ⟨"SlowDown", "other detail"⟩ () ()).2 rfl rfl).1⟩

/-- C4 (as the code has it): the delete handler returns success, an empty response and
no error, exactly when the S3 DeleteBucket call succeeds; every appliance error, the
not-found error for an absent bucket included, comes back as `Internal`. -/
theorem deleteBucket_result {σ : Type} (pkg : Objectscale) (A : Appliance σ)
    (s : ProvisionerServer) (req : Option ProvisionerDeleteBucketRequest) (w : World σ) :
    (ProvisionerDeleteBucket pkg A s req w).1 =
      match (A.s3DeleteBucket (s3Config s pkg.DefaultRegion)
          (ProvisionerDeleteBucketRequest.GetBucketId req) w.appliance).1 with
      | Except.error _ =>
          Except.error ⟨Code.Internal, "ProvisionerDeleteBucket: operation failed"⟩
      | Except.ok _ => Except.ok {} := by
  unfold ProvisionerDeleteBucket
  rw [getS3Region_none]
  rcases h : A.s3DeleteBucket (s3Config s pkg.DefaultRegion)
    (ProvisionerDeleteBucketRequest.GetBucketId req) w.appliance with ⟨r, next⟩
  cases r <;> simp [World.println, h]

/-- C4 fails as stated: deleting the bucket `never-existed` from an appliance that has no
bucket makes S3 answer `NoSuchBucket`, and the handler returns `Internal`, not success. -/
theorem deleteBucket_absent_is_internal :
    (Store.appliance.s3DeleteBucket (s3Config sampleServer samplePkg.DefaultRegion)
        "never-existed" Store.empty).1 =
          Except.error ⟨"NoSuchBucket", "NoSuchBucket: never-existed"⟩ ∧
      (ProvisionerDeleteBucket samplePkg Store.appliance sampleServer
        (some ⟨"never-existed"⟩) (World.start Store.empty)).1 =
          Except.error ⟨Code.Internal, "ProvisionerDeleteBucket: operation failed"⟩ ∧
      (ProvisionerDeleteBucket samplePkg Store.appliance sampleServer
        (some ⟨"never-existed"⟩) (World.start Store.empty)).1 ≠ Except.ok {} :=
  ⟨rfl, rfl, fun h => Except.noConfusion h⟩

/-- C3 evaluated: creating `b1` twice on the reference appliance.  The first call
returns the bucket id; the second, for which S3 answers `BucketAlreadyExists`, returns
`Internal` where the handler's own comment requires `AlreadyExists`. -/
theorem createBucket_twice_is_internal :
    (ProvisionerCreateBucket samplePkg Store.appliance sampleServer (some ⟨"b1", none⟩)
        (World.start Store.empty)).1 = Except.ok { BucketId := "b1" } ∧
      (Store.appliance.s3CreateBucket (s3Config sampleServer samplePkg.DefaultRegion) "b1"
        (ProvisionerCreateBucket samplePkg Store.appliance sampleServer (some ⟨"b1", none⟩)
          (World.start Store.empty)).2.appliance).1 =
            Except.error ⟨"BucketAlreadyExists", "BucketAlreadyExists: b1"⟩ ∧
      (ProvisionerCreateBucket samplePkg Store.appliance sampleServer (some ⟨"b1", none⟩)
        (ProvisionerCreateBucket samplePkg Store.appliance sampleServer (some ⟨"b1", none⟩)
          (World.start Store.empty)).2).1 =
            Except.error ⟨Code.Internal, "ProvisionerCreateBucket: operation failed"⟩ :=
  ⟨rfl, rfl, rfl⟩

/-! ## Grant and revoke -/

/-- C1 evaluated: a grant for bucket `b3` on the reference appliance with
`CreateAccessKey` failing.  The third call fails with `ServiceFailure`, yet the handler
returns no error status: it answers with a response whose key fields are empty. -/
theorem grant_key_failure_returns_ok :
    (Store.appliance.iamCreateAccessKey "cosi-00000000-0000-0000-0000-000000000000"
        (ProvisionerGrantBucketAccess samplePkg Store.appliance sampleServer UUID.Nil
          (some ⟨"b3"⟩)
          (World.start { Store.empty with failCreateAccessKey := true })).2.appliance).1 =
        Except.error
          ⟨"ServiceFailure", "ServiceFailure: cosi-00000000-0000-0000-0000-000000000000"⟩ ∧
      (ProvisionerGrantBucketAccess samplePkg Store.appliance sampleServer UUID.Nil
        (some ⟨"b3"⟩) (World.start { Store.empty with failCreateAccessKey := true })).1 =
        Except.ok
          { AccountId := "test_acc"
            Credentials :=
              "\x7b\"endpoint\":\"http://os:9020\", \"accessKeyId\":\"\", " ++
              "\"secretKeyId\": \"\", \"bucket\": \"b3\"\x7d" } :=
  ⟨rfl, rfl⟩

/-- What a successful `CreateUser` means on the reference appliance: the name was not
a principal, and now it is. -/
theorem Store.iamCreateUser_ok (u : String) (st st1 : Store) (user : Option User)
    (h : Store.iamCreateUser u st = (Except.ok user, st1)) :
    u ∉ st.principals ∧ st1 = { st with principals := u :: st.principals } := by
  unfold Store.iamCreateUser at h
  split_ifs at h with hu
  · simp at h
  · simp only [Prod.mk.injEq] at h
    exact ⟨hu, h.2.symm⟩

/-- What a successful `AttachUserPolicy` means on the reference appliance: the
attachment is there, and nothing else changed. -/
theorem Store.iamAttachUserPolicy_ok (u arn : String) (st st2 : Store)
    (h : Store.iamAttachUserPolicy u arn st = (Except.ok (), st2)) :
    (u, arn) ∈ st2.attachments ∧ st2.principals = st.principals ∧
      st2.accessKeys = st.accessKeys ∧ st2.buckets = st.buckets ∧
      st2.failCreateAccessKey = st.failCreateAccessKey := by
  unfold Store.iamAttachUserPolicy at h
  split_ifs at h with hu ha
  · simp only [Prod.mk.injEq, true_and] at h
    subst h
    exact ⟨ha, rfl, rfl, rfl, rfl⟩
  · simp only [Prod.mk.injEq, true_and] at h
    subst h
    exact ⟨List.mem_cons_self _ _, rfl, rfl, rfl, rfl⟩
  · simp at h

/-- A failed `CreateAccessKey` changes nothing on the reference appliance. -/
theorem Store.iamCreateAccessKey_error (u : String) (st st3 : Store) (e : GoError)
    (h : Store.iamCreateAccessKey u st = (Except.error e, st3)) : st3 = st := by
  unfold Store.iamCreateAccessKey at h
  split_ifs at h with hf hu
  · simp only [Prod.mk.injEq] at h
    exact h.2.symm
  · simp at h
  · simp only [Prod.mk.injEq] at h
    exact h.2.symm

/-- The state a grant leaves when CreateUser and AttachUserPolicy succeed and
CreateAccessKey fails, for any appliance: the one the failed call returned. -/
theorem grant_state_after_key_failure {σ : Type} (pkg : Objectscale) (A : Appliance σ)
    (s : ProvisionerServer) (nameUuid : UUID)
    (req : Option ProvisionerGrantBucketAccessRequest) (w : World σ)
    (user : Option User) (e : GoError) (st1 st2 st3 : σ)
    (h1 : A.iamCreateUser ("cosi-" ++ nameUuid.String) w.appliance = (Except.ok user, st1))
    (h2 : A.iamAttachUserPolicy ("cosi-" ++ nameUuid.String) s3FullPoilicyArn st1 =
      (Except.ok (), st2))
    (h3 : A.iamCreateAccessKey ("cosi-" ++ nameUuid.String) st2 = (Except.error e, st3)) :
    (ProvisionerGrantBucketAccess pkg A s nameUuid req w).2.appliance = st3 := by
  rw [grant_appliance, h1]
  simp only []
  rw [h2]
  simp only []
  rw [h3]

/-- C2 (as the code has it): when CreateUser and AttachUserPolicy succeed and
CreateAccessKey fails, the grant issues exactly these three calls and no compensating
one, and the appliance is left in the state the failed CreateAccessKey call returned
after the two successful calls, for every appliance behaviour.  On the reference
appliance, for every state before the call and every UUID drawn, this means: the
principal did not exist before the call and is there when the grant returns, its policy
attachment is there, the access keys and buckets are as before, and the state differs
from the one before the call. -/
theorem grant_key_failure_no_compensation :
    (∀ {σ : Type} (pkg : Objectscale) (A : Appliance σ) (s : ProvisionerServer)
        (nameUuid : UUID) (req : Option ProvisionerGrantBucketAccessRequest) (w : World σ)
        (user : Option User) (e : GoError) (st1 st2 st3 : σ),
        A.iamCreateUser ("cosi-" ++ nameUuid.String) w.appliance = (Except.ok user, st1) →
        A.iamAttachUserPolicy ("cosi-" ++ nameUuid.String) s3FullPoilicyArn st1 =
          (Except.ok (), st2) →
        A.iamCreateAccessKey ("cosi-" ++ nameUuid.String) st2 = (Except.error e, st3) →
        (ProvisionerGrantBucketAccess pkg A s nameUuid req w).2.calls =
            w.calls ++
              [Call.IamCreateUser ("cosi-" ++ nameUuid.String),
               Call.IamAttachUserPolicy ("cosi-" ++ nameUuid.String) s3FullPoilicyArn,
               Call.IamCreateAccessKey ("cosi-" ++ nameUuid.String)] ∧
          (ProvisionerGrantBucketAccess pkg A s nameUuid req w).2.appliance = st3) ∧
      (∀ (pkg : Objectscale) (s : ProvisionerServer) (nameUuid : UUID)
        (req : Option ProvisionerGrantBucketAccessRequest) (w : World Store)
        (user : Option User) (e : GoError) (st1 st2 st3 : Store),
        Store.appliance.iamCreateUser ("cosi-" ++ nameUuid.String) w.appliance =
          (Except.ok user, st1) →
        Store.appliance.iamAttachUserPolicy ("cosi-" ++ nameUuid.String) s3FullPoilicyArn
          st1 = (Except.ok (), st2) →
        Store.appliance.iamCreateAccessKey ("cosi-" ++ nameUuid.String) st2 =
          (Except.error e, st3) →
        ("cosi-" ++ nameUuid.String) ∉ w.appliance.principals ∧
          (ProvisionerGrantBucketAccess pkg Store.appliance s nameUuid req
              w).2.appliance.principals =
            ("cosi-" ++ nameUuid.String) :: w.appliance.principals ∧
          ("cosi-" ++ nameUuid.String, s3FullPoilicyArn) ∈
            (ProvisionerGrantBucketAccess pkg Store.appliance s nameUuid req
              w).2.appliance.attachments ∧
          (ProvisionerGrantBucketAccess pkg Store.appliance s nameUuid req
              w).2.appliance.accessKeys = w.appliance.accessKeys ∧
          (ProvisionerGrantBucketAccess pkg Store.appliance s nameUuid req
              w).2.appliance.buckets = w.appliance.buckets ∧
          (ProvisionerGrantBucketAccess pkg Store.appliance s nameUuid req
              w).2.appliance ≠ w.appliance) := by
  constructor
  · intro σ pkg A s nameUuid req w user e st1 st2 st3 h1 h2 h3
    exact ⟨grant_calls pkg A s nameUuid req w,
      grant_state_after_key_failure pkg A s nameUuid req w user e st1 st2 st3 h1 h2 h3⟩
  · intro pkg s nameUuid req w user e st1 st2 st3 h1 h2 h3
    rw [grant_state_after_key_failure pkg Store.appliance s nameUuid req w user e st1 st2 st3
      h1 h2 h3]
    obtain ⟨fresh, e1⟩ := Store.iamCreateUser_ok _ _ _ _ h1
    obtain ⟨att, p2, k2, b2, _⟩ := Store.iamAttachUserPolicy_ok _ _ _ _ h2
    have e3 : st3 = st2 := Store.iamCreateAccessKey_error _ _ _ _ h3
    subst e3
    have hp : st3.principals = ("cosi-" ++ nameUuid.String) :: w.appliance.principals := by
      rw [p2, e1]
    refine ⟨fresh, hp, att, ?_, ?_, ?_⟩
    · rw [k2, e1]
    · rw [b2, e1]
    · intro hEq
      rw [hEq] at hp
      exact fresh (hp ▸ List.mem_cons_self _ _)

theorem grant_key_failure_no_compensation_witness :
    (ProvisionerGrantBucketAccess samplePkg Store.appliance sampleServer UUID.Nil
        (some ⟨"b3"⟩)
        (World.start { Store.empty with failCreateAccessKey := true })).2.appliance.principals =
      ["cosi-00000000-0000-0000-0000-000000000000"] :=
  (grant_key_failure_no_compensation.2 samplePkg sampleServer UUID.Nil
    (some ⟨"b3"⟩) (World.start { Store.empty with failCreateAccessKey := true })
    (some ⟨"cosi-00000000-0000-0000-0000-000000000000"⟩)
    ⟨"ServiceFailure", "ServiceFailure: cosi-00000000-0000-0000-0000-000000000000"⟩
    { Store.empty with
      principals := ["cosi-00000000-0000-0000-0000-000000000000"]
      failCreateAccessKey := true }
    { buckets := []
      principals := ["cosi-00000000-0000-0000-0000-000000000000"]
      attachments :=
        [("cosi-00000000-0000-0000-0000-000000000000",
          "urn:osc:iam:::policy/OSCS3FullAccess")]
      accessKeys := []
      failCreateAccessKey := true }
    { buckets := []
      principals := ["cosi-00000000-0000-0000-0000-000000000000"]
      attachments :=
        [("cosi-00000000-0000-0000-0000-000000000000",
          "urn:osc:iam:::policy/OSCS3FullAccess")]
      accessKeys := []
      failCreateAccessKey := true }
    rfl rfl rfl).2.1

/-- C2 fails as stated: on the reference appliance, starting with nothing on it and
with CreateAccessKey failing, CreateUser and AttachUserPolicy succeed, and when the
grant returns the principal and its policy attachment are still on the appliance: the
state differs from the one before the call. -/
theorem grant_key_failure_leaks :
    (ProvisionerGrantBucketAccess samplePkg Store.appliance sampleServer UUID.Nil
        (some ⟨"b3"⟩)
        (World.start { Store.empty with failCreateAccessKey := true })).2.appliance.principals =
        ["cosi-00000000-0000-0000-0000-000000000000"] ∧
      (ProvisionerGrantBucketAccess samplePkg Store.appliance sampleServer UUID.Nil
        (some ⟨"b3"⟩)
        (World.start { Store.empty with failCreateAccessKey := true })).2.appliance.attachments =
        [("cosi-00000000-0000-0000-0000-000000000000",
          "urn:osc:iam:::policy/OSCS3FullAccess")] ∧
      (ProvisionerGrantBucketAccess samplePkg Store.appliance sampleServer UUID.Nil
        (some ⟨"b3"⟩)
        (World.start { Store.empty with failCreateAccessKey := true })).2.appliance ≠
        { Store.empty with failCreateAccessKey := true } :=
  ⟨rfl, rfl, by decide⟩

/-- C6 (as the code has it): after a successful grant, whose account id is the constant
`test_acc`, the revoke call for the same bucket and that account id returns
`Unimplemented` and no response, issues no appliance call and leaves the appliance, as
the whole world, exactly as the grant left it. -/
theorem grant_then_revoke_unimplemented {σ : Type} (pkg : Objectscale) (A : Appliance σ)
    (s : ProvisionerServer) (nameUuid : UUID) (bucketId : String) (w : World σ)
    (resp : ProvisionerGrantBucketAccessResponse)
    (h : (ProvisionerGrantBucketAccess pkg A s nameUuid (some ⟨bucketId⟩) w).1 =
      Except.ok resp) :
    resp.AccountId = "test_acc" ∧
      ProvisionerRevokeBucketAccess (some ⟨bucketId, resp.AccountId⟩)
          (ProvisionerGrantBucketAccess pkg A s nameUuid (some ⟨bucketId⟩) w).2 =
        (Except.error ⟨Code.Unimplemented, "ProvisionerCreateBucket: not implemented"⟩,
          (ProvisionerGrantBucketAccess pkg A s nameUuid (some ⟨bucketId⟩) w).2) := by
  refine ⟨?_, rfl⟩
  unfold ProvisionerGrantBucketAccess at h
  simp only [] at h
  split at h
  · exact absurd h (by simp)
  · simp only [Except.ok.injEq] at h
    rw [← h]

theorem grant_then_revoke_unimplemented_witness :
    (ProvisionerRevokeBucketAccess (some ⟨"b4", "test_acc"⟩)
        (ProvisionerGrantBucketAccess samplePkg Store.appliance sampleServer UUID.Nil
          (some ⟨"b4"⟩) (World.start Store.empty)).2).1 =
      Except.error ⟨Code.Unimplemented, "ProvisionerCreateBucket: not implemented"⟩ :=
  congrArg Prod.fst
    (grant_then_revoke_unimplemented samplePkg Store.appliance sampleServer UUID.Nil "b4"
      (World.start Store.empty)
      { AccountId := "test_acc"
        Credentials :=
          "\x7b\"endpoint\":\"http://os:9020\", \"accessKeyId\":\"AK0\", " ++
          "\"secretKeyId\": \"SK0\", \"bucket\": \"b4\"\x7d" }
      rfl).2

/-- C6 fails as stated: on the reference appliance, starting with nothing on it, the
grant for `b4` succeeds, the revoke that follows returns `Unimplemented`, not OK, and
the principal and the access key the grant created are still there. -/
theorem grant_then_revoke_not_restored :
    (ProvisionerRevokeBucketAccess (some ⟨"b4", "test_acc"⟩)
        (ProvisionerGrantBucketAccess samplePkg Store.appliance sampleServer UUID.Nil
          (some ⟨"b4"⟩) (World.start Store.empty)).2).1 ≠ Except.ok {} ∧
      (ProvisionerRevokeBucketAccess (some ⟨"b4", "test_acc"⟩)
        (ProvisionerGrantBucketAccess samplePkg Store.appliance sampleServer UUID.Nil
          (some ⟨"b4"⟩) (World.start Store.empty)).2).2.appliance.principals =
        ["cosi-00000000-0000-0000-0000-000000000000"] ∧
      (ProvisionerRevokeBucketAccess (some ⟨"b4", "test_acc"⟩)
        (ProvisionerGrantBucketAccess samplePkg Store.appliance sampleServer UUID.Nil
          (some ⟨"b4"⟩) (World.start Store.empty)).2).2.appliance.accessKeys =
        [("cosi-00000000-0000-0000-0000-000000000000", ⟨some "AK0", some "SK0"⟩)] ∧
      Store.empty.principals = [] ∧ Store.empty.accessKeys = [] :=
  ⟨fun h => Except.noConfusion h, rfl, rfl, rfl, rfl⟩

/-! ## The username -/

theorem isLowerHex_hextable (n : Nat) (h : n < 16) : isLowerHex (hextable n) = true := by
  interval_cases n <;> rfl

theorem hexRun_hexByte (n : Nat) (v : Fin 256) (rest : List Char) :
    hexRun (n + 2) (hexByte v ++ rest) = hexRun n rest := by
  have h1 : v.val / 16 < 16 := by omega
  have h2 : v.val % 16 < 16 := by omega
  simp [hexByte, hexRun, isLowerHex_hextable _ h1, isLowerHex_hextable _ h2]

theorem hyphen_cons (rest : List Char) : hyphen ('-' :: rest) = some rest := by
  simp [hyphen]

theorem hexRun_zero (cs : List Char) : hexRun 0 cs = some cs := by
  cases cs <;> rfl

theorem hexRun_bytes2 (a b : Fin 256) (rest : List Char) :
    hexRun 4 (hexByte a ++ (hexByte b ++ rest)) = some rest := by
  rw [show (4 : Nat) = 2 + 2 from rfl, hexRun_hexByte, show (2 : Nat) = 0 + 2 from rfl,
    hexRun_hexByte, hexRun_zero]

theorem hexRun_bytes4 (a b c d : Fin 256) (rest : List Char) :
    hexRun 8 (hexByte a ++ (hexByte b ++ (hexByte c ++ (hexByte d ++ rest)))) =
      some rest := by
  rw [show (8 : Nat) = 6 + 2 from rfl, hexRun_hexByte, show (6 : Nat) = 4 + 2 from rfl,
    hexRun_hexByte, hexRun_bytes2]

theorem hexRun_bytes6 (a b c d e f : Fin 256) (rest : List Char) :
    hexRun 12 (hexByte a ++ (hexByte b ++ (hexByte c ++ (hexByte d ++
      (hexByte e ++ (hexByte f ++ rest)))))) = some rest := by
  rw [show (12 : Nat) = 10 + 2 from rfl, hexRun_hexByte, show (10 : Nat) = 8 + 2 from rfl,
    hexRun_hexByte, hexRun_bytes4]

theorem uuid_chars_canonical (u : UUID) : isCanonicalUUIDText u.chars = true := by
  have h := hexRun_bytes6 (u 10) (u 11) (u 12) (u 13) (u 14) (u 15) []
  simp only [List.append_nil] at h
  simp [isCanonicalUUIDText, UUID.chars, hexRun_bytes4, hexRun_bytes2, hyphen_cons, h]

theorem uuid_chars_length (u : UUID) : u.chars.length = 36 := by
  simp [UUID.chars, hexByte]

theorem hexDigitValue_hextable (n : Nat) (h : n < 16) : hexDigitValue (hextable n) = some n := by
  interval_cases n <;> rfl

theorem readBytes_hexByte (n : Nat) (v : Fin 256) (rest : List Char) :
    readBytes (n + 1) (hexByte v ++ rest) =
      match readBytes n rest with
      | some (bs, r) => some (v.val :: bs, r)
      | none => none := by
  have h1 : v.val / 16 < 16 := by omega
  have h2 : v.val % 16 < 16 := by omega
  have h3 : 16 * (v.val / 16) + v.val % 16 = v.val := Nat.div_add_mod _ _
  rcases hr : readBytes n rest with _ | ⟨bs, r⟩ <;>
    simp [hexByte, readBytes, hexDigitValue_hextable _ h1, hexDigitValue_hextable _ h2, h3, hr]

theorem readBytes_zero (cs : List Char) : readBytes 0 cs = some ([], cs) := by
  cases cs <;> rfl

theorem readBytes_two (a b : Fin 256) (rest : List Char) :
    readBytes 2 (hexByte a ++ (hexByte b ++ rest)) = some ([a.val, b.val], rest) := by
  rw [show (2 : Nat) = 1 + 1 from rfl, readBytes_hexByte, show (1 : Nat) = 0 + 1 from rfl,
    readBytes_hexByte, readBytes_zero]

theorem readBytes_four (a b c d : Fin 256) (rest : List Char) :
    readBytes 4 (hexByte a ++ (hexByte b ++ (hexByte c ++ (hexByte d ++ rest)))) =
      some ([a.val, b.val, c.val, d.val], rest) := by
  rw [show (4 : Nat) = 3 + 1 from rfl, readBytes_hexByte, show (3 : Nat) = 2 + 1 from rfl,
    readBytes_hexByte, readBytes_two]

theorem readBytes_six (a b c d e f : Fin 256) (rest : List Char) :
    readBytes 6 (hexByte a ++ (hexByte b ++ (hexByte c ++ (hexByte d ++
      (hexByte e ++ (hexByte f ++ rest)))))) =
      some ([a.val, b.val, c.val, d.val, e.val, f.val], rest) := by
  rw [show (6 : Nat) = 5 + 1 from rfl, readBytes_hexByte, show (5 : Nat) = 4 + 1 from rfl,
    readBytes_hexByte, readBytes_four]

theorem decode_uuid_chars (u : UUID) : decodeUUIDText u.chars = some u.bytes := by
  have h := readBytes_six (u 10) (u 11) (u 12) (u 13) (u 14) (u 15) []
  simp only [List.append_nil] at h
  simp [decodeUUIDText, UUID.chars, UUID.bytes, readBytes_four, readBytes_two, hyphen_cons, h]


theorem hexDigitValue_inv (c : Char) (n : Nat) (h : hexDigitValue c = some n) :
    n < 16 ∧ c = hextable n := by
  unfold hexDigitValue at h
  have hc : Char.ofNat c.toNat = c := Char.ofNat_toNat c
  split_ifs at h with h1 h2
  · simp only [Option.some.injEq] at h
    subst h
    refine ⟨by omega, ?_⟩
    have : c.toNat - 48 < 10 := by omega
    simp only [hextable, this, if_true]
    rw [show 48 + (c.toNat - 48) = c.toNat by omega, hc]
  · simp only [Option.some.injEq] at h
    subst h
    refine ⟨by omega, ?_⟩
    have : ¬ c.toNat - 87 < 10 := by omega
    simp only [hextable, this, if_false]
    rw [show 87 + (c.toNat - 87) = c.toNat by omega, hc]

theorem readBytes_inv (n : Nat) : ∀ (cs : List Char) (bs : List Nat) (r : List Char),
    readBytes n cs = some (bs, r) → cs = hexOfBytes bs ++ r ∧ bs.length = n := by
  induction n with
  | zero =>
    intro cs bs r h
    rw [readBytes_zero] at h
    simp only [Option.some.injEq, Prod.mk.injEq] at h
    obtain ⟨rfl, rfl⟩ := h
    exact ⟨rfl, rfl⟩
  | succ n ih =>
    intro cs bs r h
    match cs, h with
    | hi :: lo :: cs, h =>
      simp only [readBytes] at h
      rcases h1 : hexDigitValue hi with _ | x
      · simp [h1] at h
      rcases h2 : hexDigitValue lo with _ | y
      · simp [h1, h2] at h
      rcases h3 : readBytes n cs with _ | ⟨bs1, r1⟩
      · simp [h1, h2, h3] at h
      simp only [h1, h2, h3, Option.some.injEq, Prod.mk.injEq] at h
      obtain ⟨rfl, rfl⟩ := h
      obtain ⟨hx, rfl⟩ := hexDigitValue_inv hi x h1
      obtain ⟨hy, rfl⟩ := hexDigitValue_inv lo y h2
      obtain ⟨e, len⟩ := ih cs bs1 r1 h3
      refine ⟨?_, by simp [len]⟩
      have d : (16 * x + y) / 16 = x := by omega
      have m : (16 * x + y) % 16 = y := by omega
      simp [hexOfBytes, d, m, e]
    | [], h => simp [readBytes] at h
    | [_], h => simp [readBytes] at h


theorem hyphen_inv (cs r : List Char) (h : hyphen cs = some r) : cs = '-' :: r := by
  cases cs with
  | nil => simp [hyphen] at h
  | cons c cs =>
    simp only [hyphen] at h
    split_ifs at h with hc
    simp only [Option.some.injEq] at h
    rw [hc, h]

theorem decode_uuid_unique (u : UUID) (text : List Char)
    (h : decodeUUIDText text = some u.bytes) : text = u.chars := by
  simp only [decodeUUIDText, Option.bind_eq_bind, Option.bind_eq_some] at h
  obtain ⟨⟨g1, r1⟩, h1, s1, y1, ⟨g2, r2⟩, h2, s2, y2, ⟨g3, r3⟩, h3, s3, y3, ⟨g4, r4⟩, h4,
    s4, y4, ⟨g5, r5⟩, h5, hf⟩ := h
  simp only at y1 y2 y3 y4 hf
  split_ifs at hf with hr5
  simp only [Option.some.injEq] at hf
  obtain ⟨e1, l1⟩ := readBytes_inv 4 _ _ _ h1
  obtain ⟨e2, l2⟩ := readBytes_inv 2 _ _ _ h2
  obtain ⟨e3, l3⟩ := readBytes_inv 2 _ _ _ h3
  obtain ⟨e4, l4⟩ := readBytes_inv 2 _ _ _ h4
  obtain ⟨e5, l5⟩ := readBytes_inv 6 _ _ _ h5
  have b : u.bytes =
      [(u 0).val, (u 1).val, (u 2).val, (u 3).val] ++ [(u 4).val, (u 5).val] ++
        [(u 6).val, (u 7).val] ++ [(u 8).val, (u 9).val] ++
        [(u 10).val, (u 11).val, (u 12).val, (u 13).val, (u 14).val, (u 15).val] := rfl
  rw [b] at hf
  obtain ⟨hf, q5⟩ := List.append_inj hf (by simp [l1, l2, l3, l4])
  obtain ⟨hf, q4⟩ := List.append_inj hf (by simp [l1, l2, l3])
  obtain ⟨hf, q3⟩ := List.append_inj hf (by simp [l1, l2])
  obtain ⟨q1, q2⟩ := List.append_inj hf (by simp [l1])
  rw [e1, hyphen_inv _ _ y1, e2, hyphen_inv _ _ y2, e3, hyphen_inv _ _ y3, e4,
    hyphen_inv _ _ y4, e5, hr5, q1, q2, q3, q4, q5]
  simp [UUID.chars, hexByte, hexOfBytes]

/-- C9: for every UUID value drawn in a grant, the username is `cosi-` followed by the
canonical text of that UUID: the text reads back, as lowercase hex in hyphenated groups
of 8, 4, 4, 4 and 12 digits, to exactly the sixteen bytes of the UUID drawn, and it is
the only text that does; it has 36 characters, so the username has length 41; and that
one username is what the grant passes to CreateUser, AttachUserPolicy and
CreateAccessKey, in this order. -/
theorem grant_username {σ : Type} (pkg : Objectscale) (A : Appliance σ)
    (s : ProvisionerServer) (nameUuid : UUID)
    (req : Option ProvisionerGrantBucketAccessRequest) (w : World σ) :
    decodeUUIDText nameUuid.String.data = some nameUuid.bytes ∧
      (∀ text : List Char, decodeUUIDText text = some nameUuid.bytes →
        text = nameUuid.String.data) ∧
      isCanonicalUUIDText nameUuid.String.data = true ∧
      nameUuid.String.length = 36 ∧
      ("cosi-" ++ nameUuid.String).data = "cosi-".data ++ nameUuid.String.data ∧
      ("cosi-" ++ nameUuid.String).length = 41 ∧
      (ProvisionerGrantBucketAccess pkg A s nameUuid req w).2.calls =
        w.calls ++
          [Call.IamCreateUser ("cosi-" ++ nameUuid.String),
           Call.IamAttachUserPolicy ("cosi-" ++ nameUuid.String) s3FullPoilicyArn,
           Call.IamCreateAccessKey ("cosi-" ++ nameUuid.String)] := by
  have hlen : nameUuid.String.length = 36 := by
    simp [UUID.String, String.length, uuid_chars_length]
  refine ⟨decode_uuid_chars nameUuid, decode_uuid_unique nameUuid,
    uuid_chars_canonical nameUuid, hlen, String.data_append _ _, ?_,
    grant_calls pkg A s nameUuid req w⟩
  rw [String.length_append, hlen]
  rfl

theorem grant_username_witness :
    decodeUUIDText "00000000-0000-0000-0000-000000000000".data = some UUID.Nil.bytes ∧
      "00000000-0000-0000-0000-000000000000".data = UUID.Nil.String.data :=
  ⟨rfl, (grant_username samplePkg Store.appliance sampleServer UUID.Nil (some ⟨"b2"⟩)
    (World.start Store.empty)).2.1 "00000000-0000-0000-0000-000000000000".data rfl⟩

/-! ## The credential envelope -/

namespace Json

theorem stringItems_plain (cs rest : List Char) (h : cs.all plainChar = true) :
    stringItems (cs ++ '"' :: rest) = some (cs.map Item.ch, rest) := by
  induction cs with
  | nil =>
    rw [List.nil_append, stringItems.eq_def]
    simp
  | cons c cs ih =>
    simp only [List.all_cons, Bool.and_eq_true] at h
    obtain ⟨hc, hcs⟩ := h
    simp only [plainChar, Bool.and_eq_true, decide_eq_true_eq, ne_eq] at hc
    obtain ⟨⟨h1, h2⟩, h3⟩ := hc
    have h4 : ¬ c.toNat < 32 := by omega
    rw [List.cons_append, stringItems.eq_def]
    simp [h1, h2, h4, ih hcs]

theorem assembleFrom_plain (cs : List Char) : assembleFrom none (cs.map Item.ch) = cs := by
  induction cs with
  | nil => rfl
  | cons c cs ih => simp [assembleFrom, flush, ih]

theorem string_plain (cs rest : List Char) (h : cs.all plainChar = true) :
    string ('"' :: (cs ++ '"' :: rest)) = some (String.mk cs, rest) := by
  simp [string, stringItems_plain cs rest h, assemble, assembleFrom_plain]

theorem skipWs_keep (c : Char) (cs : List Char) (h : isWs c = false) :
    skipWs (c :: cs) = c :: cs := by
  simp [skipWs, h]

theorem skipWs_space (cs : List Char) : skipWs (' ' :: cs) = skipWs cs := by
  simp [skipWs, isWs]

theorem members_comma (fuel : Nat) (k v r2 r3 r4 : List Char)
    (hk : k.all plainChar = true) (hv : v.all plainChar = true)
    (h2 : skipWs r2 = '"' :: (v ++ '"' :: r3)) (h3 : skipWs r3 = ',' :: r4) :
    members (fuel + 1) ('"' :: (k ++ '"' :: ':' :: r2)) =
      match members fuel (skipWs r4) with
      | some (ms, r5) => some ((String.mk k, String.mk v) :: ms, r5)
      | none => none := by
  rw [members, string_plain k _ hk]
  simp only []
  rw [skipWs_keep ':' _ (by decide)]
  simp only [if_true]
  rw [h2, string_plain v _ hv]
  simp only []
  rw [h3]
  simp

theorem members_close (fuel : Nat) (k v r2 r3 r4 : List Char)
    (hk : k.all plainChar = true) (hv : v.all plainChar = true)
    (h2 : skipWs r2 = '"' :: (v ++ '"' :: r3)) (h3 : skipWs r3 = '}' :: r4) :
    members (fuel + 1) ('"' :: (k ++ '"' :: ':' :: r2)) =
      some ([(String.mk k, String.mk v)], r4) := by
  rw [members, string_plain k _ hk]
  simp only []
  rw [skipWs_keep ':' _ (by decide)]
  simp only [if_true]
  rw [h2, string_plain v _ hv]
  simp only []
  rw [h3]
  simp

end Json

theorem credentialsText_data (e a k b : String) :
    (credentialsText e a k b).data =
      '{' :: '"' :: ("endpoint".data ++ '"' :: ':' :: '"' :: (e.data ++
        '"' :: ',' :: ' ' :: '"' :: ("accessKeyId".data ++ '"' :: ':' :: '"' :: (a.data ++
        '"' :: ',' :: ' ' :: '"' :: ("secretKeyId".data ++ '"' :: ':' :: ' ' :: '"' :: (k.data ++
        '"' :: ',' :: ' ' :: '"' :: ("bucket".data ++ '"' :: ':' :: ' ' :: '"' :: (b.data ++
        ['"', '}'])))))))) := by
  simp [credentialsText, String.data_append]

/-- With an endpoint, key pair and bucket id that need no escaping, the text the grant
handler concatenates is the envelope the specification describes. -/
theorem credentialsText_decodes (e a k b : String)
    (he : Json.plain e = true) (ha : Json.plain a = true) (hk : Json.plain k = true)
    (hb : Json.plain b = true) :
    isEnvelopeFor (credentialsText e a k b) e a k b := by
  have q : ∀ cs : List Char, Json.skipWs ('"' :: cs) = '"' :: cs :=
    fun cs => Json.skipWs_keep '"' cs (by decide)
  have qs : ∀ cs : List Char, Json.skipWs (' ' :: '"' :: cs) = '"' :: cs :=
    fun cs => by rw [Json.skipWs_space, q]
  have c : ∀ cs : List Char, Json.skipWs (',' :: cs) = ',' :: cs :=
    fun cs => Json.skipWs_keep ',' cs (by decide)
  constructor
  · unfold Json.decodeObject Json.object
    obtain ⟨n, hn⟩ : ∃ n, (credentialsText e a k b).data.length = n + 4 :=
      ⟨(credentialsText e a k b).data.length - 4, by
        rw [credentialsText_data]; simp⟩
    rw [hn, credentialsText_data, Json.skipWs_keep '{' _ (by decide)]
    simp only [if_true]
    rw [q]
    simp only [show ('"' = '}') = False from by decide, if_false]
    rw [Json.members_comma (n + 3) _ e.data _ _ _ (by decide) he (q _) (c _), qs,
      Json.members_comma (n + 2) _ a.data _ _ _ (by decide) ha (q _) (c _), qs,
      Json.members_comma (n + 1) _ k.data _ _ _ (by decide) hk (qs _) (c _), qs,
      Json.members_close n _ b.data _ _ [] (by decide) hb (qs _)
        (Json.skipWs_keep '}' _ (by decide))]
    simp [Json.skipWs]
  · have h : (credentialsText e a k b).data.getLast? = some '}' := by
      simp only [credentialsText, String.data_append]
      rw [List.getLast?_append]
      rfl
    rw [h]
    rfl

/-- C5 evaluated: a grant for the bucket id `a"b` on the reference appliance.  All three
calls succeed, the key pair is `AK0`/`SK0`, and the `Credentials` text carries the
bucket id unescaped, so that it does not read as a JSON object at all. -/
theorem grant_envelope_quote_breaks_json :
    (ProvisionerGrantBucketAccess samplePkg Store.appliance sampleServer UUID.Nil
        (some ⟨"a\"b"⟩) (World.start Store.empty)).1 =
        Except.ok
          { AccountId := "test_acc"
            Credentials :=
              "\x7b\"endpoint\":\"http://os:9020\", \"accessKeyId\":\"AK0\", " ++
              "\"secretKeyId\": \"SK0\", \"bucket\": \"a\"b\"\x7d" } ∧
      Json.decodeObject
        ("\x7b\"endpoint\":\"http://os:9020\", \"accessKeyId\":\"AK0\", " ++
          "\"secretKeyId\": \"SK0\", \"bucket\": \"a\"b\"\x7d") = none ∧
      ¬ isEnvelopeFor
        ("\x7b\"endpoint\":\"http://os:9020\", \"accessKeyId\":\"AK0\", " ++
          "\"secretKeyId\": \"SK0\", \"bucket\": \"a\"b\"\x7d")
        "http://os:9020" "AK0" "SK0" "a\"b" :=
  ⟨rfl, rfl, fun h => Option.noConfusion ((Eq.symm h.1).trans
    (rfl : Json.decodeObject
        ("\x7b\"endpoint\":\"http://os:9020\", \"accessKeyId\":\"AK0\", " ++
          "\"secretKeyId\": \"SK0\", \"bucket\": \"a\"b\"\x7d") = none))⟩

end CosiDriver
